import Mathlib

/-!
Verification of `celesta/score/simpleCases/testSimpleCases.py`.

The repository excerpt contains only the test module: the six trigger
callbacks, two module-level flags, and three test methods driving an
external ORM cursor engine.  The callbacks, the flags and the test flows
are translated directly from the Python source.  The cursor engine
itself (view evaluation, trigger dispatch, default population) is not in
the excerpt; those definitions are modelled from the spec and are marked
as such in their doc comments.
-/

namespace SimpleCases

/-! ## Timestamps and the `getDateForView` table -/

/-- A row of the `getDateForView` table: a single timestamp-valued
column `date`.  Timestamps are instants on an integer time line
(milliseconds, as in `java.sql.Timestamp`). -/
structure DateRow where
  date : Int
deriving DecidableEq, Repr

/-- One day, the offset used by `LocalDateTime.minusDays(1)` /
`plusDays(1)` in the test, in milliseconds. -/
def oneDay : Int := 86400000

/-- Modelled from the spec: the derived view `viewWithGetGate` over
"future-dated" rows "returns a row if and only if the underlying
timestamp is strictly after current time at the moment of evaluation".
`now` is the current time at the moment the view is evaluated. -/
def viewRows (now : Int) (table : List DateRow) : List DateRow :=
  table.filter (fun r => decide (now < r.date))

/-- Modelled from the spec: `viewCursor.count()` — the number of rows
the derived view returns at evaluation time `now`. -/
def viewCount (now : Int) (table : List DateRow) : Nat :=
  (viewRows now table).length

/-- The flow of `TestSimpleCases.test_getdate_in_view`, with the four
uses of the current clock abstracted: `t1` is `now()` at the first
insert statement, `t2` the evaluation time of the `count()` after it,
`t3` `now()` at the second insert, `t4` the evaluation time of the
final `count()`.  Returns the three asserted counts in order. -/
def test_getdate_in_view (t0 t1 t2 t3 t4 : Int) : Nat × Nat × Nat :=
  let table0 : List DateRow := []
  let assert0 := viewCount t0 table0
  let table1 := table0 ++ [{ date := t1 - oneDay }]
  let assert1 := viewCount t2 table1
  let table2 := table1 ++ [{ date := t3 + oneDay }]
  let assert2 := viewCount t4 table2
  (assert0, assert1, assert2)

/-! ## The trigger model -/

/-- The log-record cursor (`ru.curs.celesta.syscursors.LogCursor`):
the fields the test file reads or writes. -/
structure LogRecord where
  userid : String
  sessionid : String
  grainid : String
  tablename : String
  action_type : String
deriving DecidableEq, Repr

/-- The two module-level flags declared in `testSimpleCases.py`. -/
structure ModuleFlags where
  isPreDeleteDone : Bool
  isPostDeleteDone : Bool
deriving DecidableEq, Repr

/-- The state a trigger callback can observe and mutate: the cursor
instance it receives and the module-level flags. -/
structure TrigState where
  cursor : LogRecord
  flags : ModuleFlags
deriving DecidableEq, Repr

/-- A trigger callback, as registered via `onPreInsert` etc.: it takes
the cursor (together with the module state it may close over) and
mutates it. -/
abbrev Callback := TrigState → TrigState

/-- `def preInsert(logCursor): logCursor.tablename = "getDateForView"` -/
def preInsert : Callback := fun s =>
  { s with cursor := { s.cursor with tablename := "getDateForView" } }

/-- `def postInsert(logCursor): logCursor.sessionid = "1"` -/
def postInsert : Callback := fun s =>
  { s with cursor := { s.cursor with sessionid := "1" } }

/-- `def preUpdate(logCursor): logCursor.tablename = "zeroInsert"` -/
def preUpdate : Callback := fun s =>
  { s with cursor := { s.cursor with tablename := "zeroInsert" } }

/-- `def postUpdate(logCursor): logCursor.sessionid = "2"` -/
def postUpdate : Callback := fun s =>
  { s with cursor := { s.cursor with sessionid := "2" } }

/-- `def preDelete(logCursor)`: sets the global `isPreDeleteDone` and
`logCursor.tablename = "table2"`. -/
def preDelete : Callback := fun s =>
  { cursor := { s.cursor with tablename := "table2" },
    flags := { s.flags with isPreDeleteDone := true } }

/-- `def postDelete(logCursor)`: sets the global `isPostDeleteDone` and
`logCursor.sessionid = "2"`. -/
def postDelete : Callback := fun s =>
  { cursor := { s.cursor with sessionid := "2" },
    flags := { s.flags with isPostDeleteDone := true } }

/-- The three cursor mutation operations. -/
inductive Op
  | ins
  | upd
  | del
deriving DecidableEq, Repr

/-- Whether a hook runs before or after the mutation is committed. -/
inductive Phase
  | pre
  | post
deriving DecidableEq, Repr

/-- The hooks registered on `LogCursor`, one list per operation kind
and phase (each `onPreInsert`-style call appends one callback). -/
structure Hooks where
  preIns : List Callback
  postIns : List Callback
  preUpd : List Callback
  postUpd : List Callback
  preDel : List Callback
  postDel : List Callback

/-- The pre-phase hook list for an operation kind. -/
def Hooks.preOf (h : Hooks) : Op → List Callback
  | .ins => h.preIns
  | .upd => h.preUpd
  | .del => h.preDel

/-- The post-phase hook list for an operation kind. -/
def Hooks.postOf (h : Hooks) : Op → List Callback
  | .ins => h.postIns
  | .upd => h.postUpd
  | .del => h.postDel

/-- An observable event of one cursor operation: a hook invocation
(identified by phase, operation kind and registration index), or the
commit of the mutation, carrying the cursor's field values at the
moment it commits. -/
inductive TraceItem
  | hook (ph : Phase) (op : Op) (idx : Nat)
  | commit (op : Op) (row : LogRecord)
deriving DecidableEq, Repr

/-- The operation kind an event belongs to. -/
def TraceItem.opOf : TraceItem → Op
  | .hook _ op _ => op
  | .commit op _ => op

/-- Run a list of callbacks in registration order, recording one
invocation event per callback; `i` is the registration index of the
first callback in `cbs`. -/
def runCallbacks (ph : Phase) (op : Op) (cbs : List Callback) (i : Nat)
    (s : TrigState) : TrigState × List TraceItem :=
  match cbs with
  | [] => (s, [])
  | cb :: rest =>
      let s1 := cb s
      let (s2, tr) := runCallbacks ph op rest (i + 1) s1
      (s2, .hook ph op i :: tr)

/-- Fold a list of callbacks over a state (the pure effect of
`runCallbacks`, without the trace). -/
def applyCallbacks (cbs : List Callback) (s : TrigState) : TrigState :=
  match cbs with
  | [] => s
  | cb :: rest => applyCallbacks rest (cb s)

/-- Modelled from the spec: the trigger dispatch around one cursor
mutation (`insert()` / `update()` / `delete()`), which is not in the
repository excerpt.  "Trigger callbacks, once registered, fire exactly
once per matching operation, before (pre-) or after (post-) the
mutation is committed to the cursor's in-memory state, and may rewrite
field values that take effect for that operation."  The pre hooks run
in registration order, the mutation commits with the cursor's current
field values, then the post hooks run.  Returns the final state and
the trace of events. -/
def runOp (h : Hooks) (op : Op) (s : TrigState) : TrigState × List TraceItem :=
  let (s1, tr1) := runCallbacks .pre op (h.preOf op) 0 s
  let commitEv : TraceItem := .commit op s1.cursor
  let (s2, tr2) := runCallbacks .post op (h.postOf op) 0 s1
  (s2, tr1 ++ commitEv :: tr2)

/-- The hooks as registered in `test_triggers_on_sys_cursors`: all six
callbacks, one per operation kind and phase. -/
def testHooks : Hooks :=
  { preIns := [preInsert], postIns := [postInsert],
    preUpd := [preUpdate], postUpd := [postUpdate],
    preDel := [preDelete], postDel := [postDelete] }

/-- The state at the start of `test_triggers_on_sys_cursors`, after the
five field assignments and with the module flags at their load-time
value `False`. -/
def initialTrigState : TrigState :=
  { cursor := { userid := "1", sessionid := "0", grainid := "simpleCases",
                tablename := "zeroInsert", action_type := "I" },
    flags := { isPreDeleteDone := false, isPostDeleteDone := false } }

/-- State after `c.insert()` in the test. -/
def afterInsert : TrigState := (runOp testHooks .ins initialTrigState).1

/-- State after `c.update()` in the test. -/
def afterUpdate : TrigState := (runOp testHooks .upd afterInsert).1

/-- State after `c.delete()` in the test. -/
def afterDelete : TrigState := (runOp testHooks .del afterUpdate).1

/-! ## The `zeroInsert` table -/

/-- A `zeroInsertCursor`: the two columns of the `zeroInsert` table.
`none` models a field the caller never assigned. -/
structure ZeroInsertRow where
  id : Option Int
  date : Option Int
deriving DecidableEq, Repr

/-- A freshly constructed `zeroInsertCursor(self.context)`: no field
assigned yet. -/
def freshZeroInsert : ZeroInsertRow := { id := none, date := none }

/-- Modelled from the spec: `insert()` on a `zeroInsertCursor`, whose
engine implementation is not in the repository excerpt.  "Inserting
into a table with no explicit id/date sets both to engine-supplied
defaults."  `defId` and `defDate` are the engine-supplied defaults
(the identity value and the current timestamp); a field the caller
assigned keeps its value. -/
def zeroInsertCursorInsert (defId defDate : Int) (c : ZeroInsertRow) :
    ZeroInsertRow :=
  { id := some (c.id.getD defId), date := some (c.date.getD defDate) }

/-! ## Probing the six callbacks -/

/-- The six free trigger-callback functions, in source order. -/
def sixCallbacks : List Callback :=
  [preInsert, postInsert, preUpdate, postUpdate, preDelete, postDelete]

/-- A probe state: every cursor field empty, both module flags `False`
(their module-load value). -/
def probeState : TrigState :=
  { cursor := { userid := "", sessionid := "", grainid := "",
                tablename := "", action_type := "" },
    flags := { isPreDeleteDone := false, isPostDeleteDone := false } }

/-- The callback mutates a field on the cursor it receives: applied to
the probe state, it changes the cursor's field values. -/
def mutatesCursorField (f : Callback) : Bool :=
  decide ((f probeState).cursor ≠ probeState.cursor)

/-- The callback sets a module-level flag: applied to the probe state
(both flags `False`), it leaves some flag `True`. -/
def setsModuleFlag (f : Callback) : Bool :=
  (f probeState).flags.isPreDeleteDone || (f probeState).flags.isPostDeleteDone

end SimpleCases

namespace SimpleCases

/-! ## Helper lemmas -/

/-- `runCallbacks` applies the callbacks in order and records one
invocation event per registered callback, at consecutive indices. -/
theorem runCallbacks_eq (ph : Phase) (op : Op) (cbs : List Callback)
    (i : Nat) (s : TrigState) :
    runCallbacks ph op cbs i s =
      (applyCallbacks cbs s,
       (List.range cbs.length).map (fun j => TraceItem.hook ph op (i + j))) := by
  induction cbs generalizing i s with
  | nil => simp [runCallbacks, applyCallbacks]
  | cons cb rest ih =>
      simp only [runCallbacks, applyCallbacks, ih, List.length_cons,
        List.range_succ_eq_map, List.map_cons, List.map_map, Nat.add_zero]
      refine Prod.ext rfl ?_
      simp only [Function.comp]
      have harg : (fun j => TraceItem.hook ph op (i + 1 + j)) =
          (fun j => TraceItem.hook ph op (i + Nat.succ j)) := by
        funext j
        have : i + 1 + j = i + Nat.succ j := by omega
        rw [this]
      rw [harg]
      rfl

/-- The pure state effect of `runOp`: pre hooks, then post hooks. -/
theorem runOp_fst (h : Hooks) (op : Op) (s : TrigState) :
    (runOp h op s).1 = applyCallbacks (h.postOf op) (applyCallbacks (h.preOf op) s) := by
  simp [runOp, runCallbacks_eq]

/-! ## Claim theorems -/

/-- C1: in `test_getdate_in_view`, after the table is emptied, the view
counts 0 rows; after inserting a row dated one day before the current
time the view still counts 0; after inserting a row dated one day after
the current time it counts 1.  The clock readings `t0 ≤ t1 ≤ t2 ≤ t3 ≤ t4`
advance monotonically and less than a day passes between the second
insert and the final count. -/
theorem getdate_in_view_counts (t0 t1 t2 t3 t4 : Int)
    (h12 : t1 ≤ t2) (h14 : t1 ≤ t4) (h34 : t3 ≤ t4 ∧ t4 < t3 + oneDay) :
    test_getdate_in_view t0 t1 t2 t3 t4 = (0, 0, 1) := by
  have e1 : decide (t2 < t1 - oneDay) = false := by
    rw [decide_eq_false_iff_not]
    unfold oneDay
    omega
  have e2 : decide (t4 < t1 - oneDay) = false := by
    rw [decide_eq_false_iff_not]
    unfold oneDay
    omega
  have e3 : decide (t4 < t3 + oneDay) = true := by
    rw [decide_eq_true_eq]
    exact h34.2
  simp [test_getdate_in_view, viewCount, viewRows, List.filter, e1, e2, e3]

/-- Witness for C1 at the clock readings 0, 0, 0, 0, 0. -/
theorem getdate_in_view_counts_witness :
    test_getdate_in_view 0 0 0 0 0 = (0, 0, 1) :=
  getdate_in_view_counts 0 0 0 0 0 (le_refl 0) (le_refl 0)
    ⟨le_refl 0, by decide⟩

/-- C2: a row is returned by the future-dated view if and only if it is
in the underlying table and its timestamp is strictly after the current
time at the moment of evaluation; a row whose timestamp equals the
current time is excluded. -/
theorem view_membership (now : Int) (table : List DateRow) (r : DateRow) :
    (r ∈ viewRows now table ↔ r ∈ table ∧ now < r.date) ∧
    { date := now : DateRow } ∉ viewRows now table := by
  constructor
  · simp [viewRows, List.mem_filter]
  · simp [viewRows, List.mem_filter]

/-- C3: with the test's hooks registered, after `insert()` the cursor's
`tablename` is "getDateForView" (written by the pre-insert hook) and its
`sessionid` is "1" (written by the post-insert hook), whatever values
the caller assigned to those fields before the call. -/
theorem insert_hook_fields (s : TrigState) :
    ((runOp testHooks .ins s).1).cursor.tablename = "getDateForView" ∧
    ((runOp testHooks .ins s).1).cursor.sessionid = "1" := by
  simp [runOp_fst, testHooks, Hooks.preOf, Hooks.postOf, applyCallbacks,
    preInsert, postInsert]

/-- C4: with the test's hooks registered, after `update()` the cursor's
`tablename` is "zeroInsert" and its `sessionid` is "2", whatever values
those fields held before the call. -/
theorem update_hook_fields (s : TrigState) :
    ((runOp testHooks .upd s).1).cursor.tablename = "zeroInsert" ∧
    ((runOp testHooks .upd s).1).cursor.sessionid = "2" := by
  simp [runOp_fst, testHooks, Hooks.preOf, Hooks.postOf, applyCallbacks,
    preUpdate, postUpdate]

/-- C5: the module flags `isPreDeleteDone` / `isPostDeleteDone` are both
`False` at every point of the test before `delete()` — at the start and
after `insert()` and `update()` have run with their triggers — and both
`True` after `delete()` returns; `insert()` and `update()` leave the
flags of any state unchanged, so only the delete operation sets them. -/
theorem delete_sets_flags (s : TrigState) :
    (runOp testHooks .ins s).1.flags = s.flags ∧
    (runOp testHooks .upd s).1.flags = s.flags ∧
    (runOp testHooks .del s).1.flags =
      { isPreDeleteDone := true, isPostDeleteDone := true } ∧
    initialTrigState.flags = { isPreDeleteDone := false, isPostDeleteDone := false } ∧
    afterInsert.flags = { isPreDeleteDone := false, isPostDeleteDone := false } ∧
    afterUpdate.flags = { isPreDeleteDone := false, isPostDeleteDone := false } ∧
    afterDelete.flags = { isPreDeleteDone := true, isPostDeleteDone := true } := by
  refine ⟨?_, ?_, ?_, ?_, ?_, ?_, ?_⟩ <;>
    simp [runOp_fst, testHooks, Hooks.preOf, Hooks.postOf, applyCallbacks,
      preInsert, postInsert, preUpdate, postUpdate, preDelete, postDelete,
      afterInsert, afterUpdate, afterDelete, initialTrigState]

/-- C6: for any registered hooks and any mutation, the operation's trace
is exactly one invocation event per registered pre-hook (in registration
order), then the commit of the mutation carrying the cursor as rewritten
by the pre-hooks (their field writes take effect for the operation),
then exactly one invocation event per registered post-hook; every event
of the trace belongs to this operation kind, so hooks registered for
other operation kinds are not invoked; the resulting state is the
composite effect of the hooks. -/
theorem trigger_dispatch (h : Hooks) (op : Op) (s : TrigState) :
    (runOp h op s).2 =
      (List.range (h.preOf op).length).map (fun j => TraceItem.hook .pre op j)
        ++ TraceItem.commit op (applyCallbacks (h.preOf op) s).cursor
          :: (List.range (h.postOf op).length).map
              (fun j => TraceItem.hook .post op j) ∧
    ((runOp h op s).2.all (fun e => decide (e.opOf = op))) = true ∧
    (runOp h op s).1 = applyCallbacks (h.postOf op) (applyCallbacks (h.preOf op) s) := by
  refine ⟨?_, ?_, runOp_fst h op s⟩
  · simp [runOp, runCallbacks_eq]
  · simp only [runOp, runCallbacks_eq]
    simp only [List.all_eq_true, List.mem_append, List.mem_cons, List.mem_map,
      List.mem_range, decide_eq_true_eq]
    rintro e (⟨j, _, rfl⟩ | rfl | ⟨j, _, rfl⟩) <;> rfl

/-- C7: `insert()` on a freshly constructed `zeroInsertCursor`, with no
field assigned, populates both `id` and `date` with the engine-supplied
defaults: neither field is left unset. -/
theorem zero_insert_defaults (defId defDate : Int) :
    (zeroInsertCursorInsert defId defDate freshZeroInsert).id = some defId ∧
    (zeroInsertCursorInsert defId defDate freshZeroInsert).date = some defDate := by
  simp [zeroInsertCursorInsert, freshZeroInsert]

/-- C8 counterexample: it is not the case that each of the six callback
functions both mutates a cursor field and sets a module-level flag — at
the concrete input `preInsert`, the callback mutates the cursor (it
writes `tablename`) but leaves both module flags `False`. -/
theorem six_callbacks_claim_false :
    (sixCallbacks.all (fun f => mutatesCursorField f && setsModuleFlag f)) = false ∧
    mutatesCursorField preInsert = true ∧
    setsModuleFlag preInsert = false := by
  decide

/-- C8 (amended): each of the six callbacks mutates a field on the
cursor it receives; `preDelete` and `postDelete` additionally set a
module-level flag, while the four insert/update callbacks leave the
module flags untouched. -/
theorem six_callbacks_effects :
    (sixCallbacks.all mutatesCursorField) = true ∧
    setsModuleFlag preDelete = true ∧
    setsModuleFlag postDelete = true ∧
    setsModuleFlag preInsert = false ∧
    setsModuleFlag postInsert = false ∧
    setsModuleFlag preUpdate = false ∧
    setsModuleFlag postUpdate = false := by
  decide

/-- C9: with the test's hooks registered, after `delete()` the cursor's
`tablename` is "table2" (written by the pre-delete hook) and its
`sessionid` is "2" (written by the post-delete hook), whatever values
those fields held before the call. -/
theorem delete_hook_fields (s : TrigState) :
    ((runOp testHooks .del s).1).cursor.tablename = "table2" ∧
    ((runOp testHooks .del s).1).cursor.sessionid = "2" := by
  simp [runOp_fst, testHooks, Hooks.preOf, Hooks.postOf, applyCallbacks,
    preDelete, postDelete]

/-- C10: `preInsert`/`preUpdate` write exactly the `tablename` field,
`postInsert`/`postUpdate` write exactly the `sessionid` field, and none
of the four touches the module flags; hence `insert()` with the test's
hooks preserves `userid`, `grainid` and `action_type`, and in the test
flow they still read "1", "simpleCases" and "I" after `insert()`. -/
theorem insert_update_hooks_frame (s : TrigState) :
    (preInsert s).cursor = { s.cursor with tablename := "getDateForView" } ∧
    (postInsert s).cursor = { s.cursor with sessionid := "1" } ∧
    (preUpdate s).cursor = { s.cursor with tablename := "zeroInsert" } ∧
    (postUpdate s).cursor = { s.cursor with sessionid := "2" } ∧
    (preInsert s).flags = s.flags ∧
    (postInsert s).flags = s.flags ∧
    (preUpdate s).flags = s.flags ∧
    (postUpdate s).flags = s.flags ∧
    (runOp testHooks .ins s).1.cursor.userid = s.cursor.userid ∧
    (runOp testHooks .ins s).1.cursor.grainid = s.cursor.grainid ∧
    (runOp testHooks .ins s).1.cursor.action_type = s.cursor.action_type ∧
    afterInsert.cursor.userid = "1" ∧
    afterInsert.cursor.grainid = "simpleCases" ∧
    afterInsert.cursor.action_type = "I" := by
  refine ⟨rfl, rfl, rfl, rfl, rfl, rfl, rfl, rfl, ?_, ?_, ?_, ?_, ?_, ?_⟩ <;>
    simp [runOp_fst, testHooks, Hooks.preOf, Hooks.postOf, applyCallbacks,
      preInsert, postInsert, afterInsert, initialTrigState]

end SimpleCases
